import Mathlib

/-!
Verification of the decision-and-dispatch core of `src/fb_copyarea.c`
(xf86-video-fbturbo framebuffer copyarea/fill acceleration shim).

Shallow embedding conventions:
* C `int` values become `Int`; the unsigned `__u32` screen-info values are
  modelled as mathematical `Int` values (they are nonnegative in every run
  that reaches the checks verified here).
* Pixel-buffer pointers (`uint32_t *src_bits`, `dst_bits`,
  `ctx->framebuffer_addr`) matter only through identity comparison, so they
  are modelled as `Nat` identifiers.
* The external world (the `open`, `ioctl` and `mmap` system calls) is an
  oracle: probe outcomes and screen-info query results are fields of
  `fb_device_env`, and the per-request `ioctl` return codes are function
  parameters of the dispatchers.
* Each dispatcher returns its C `int` result paired with the list of
  externally visible calls it made (accelerated ioctl requests and
  fallback invocations), so that claims about "issues exactly one
  accelerated request" or "invokes the fallback with identical arguments"
  are directly statable.
-/

/-- C macro `COPYAREA_BLT_SIZE_THRESHOLD` (line 52): 90. -/
def COPYAREA_BLT_SIZE_THRESHOLD : Int := 90

/-- C macro `COPYAREA_FILL_SIZE_THRESHOLD` (line 53): `1 << 24`. -/
def COPYAREA_FILL_SIZE_THRESHOLD : Int := 2 ^ 24

/-- Linux `ROP_COPY` raster-operation constant from `linux/fb.h` (value 0). -/
def ROP_COPY : Int := 0

/-- Argument record of the `overlapped_blt` contract: the twelve arguments
after `self` of `fb_copyarea_blt` (lines 231-243), also the argument shape
forwarded unchanged by `try_fallback_blt`. -/
structure blt2d_args where
  src_bits : Nat
  dst_bits : Nat
  src_stride : Int
  dst_stride : Int
  src_bpp : Int
  dst_bpp : Int
  src_x : Int
  src_y : Int
  dst_x : Int
  dst_y : Int
  w : Int
  h : Int
deriving DecidableEq

/-- The `struct fb_copyarea` payload handed to the `FBIOCOPYAREA` ioctl
(filled in at lines 263-268). -/
structure fb_copyarea_req where
  sx : Int
  sy : Int
  dx : Int
  dy : Int
  width : Int
  height : Int
deriving DecidableEq

/-- The `struct fb_fillrect` payload handed to the `FBIOFILLRECT` ioctl
(filled in at lines 305-310). -/
structure fb_fillrect_req where
  dx : Int
  dy : Int
  width : Int
  height : Int
  rop : Int
  color : Int
deriving DecidableEq

/-- An externally visible call made by a dispatcher: an accelerated
copy/fill ioctl request, or an invocation of the fallback provider's
`overlapped_blt`. -/
inductive fb_event where
  | copy_ioctl (req : fb_copyarea_req)
  | fill_ioctl (req : fb_fillrect_req)
  | fallback_call (a : blt2d_args)
deriving DecidableEq

/-- The device context `fb_copyarea_t` (declared in the missing
`fb_copyarea.h`, but every field is written and read in `fb_copyarea.c`).
The embedded `blt2d` interface record is flattened: `blt2d_overlapped_blt_set`
and `blt2d_fill_set` record which of its operation entries lines 184-186
install (a NULL entry is `false`); `fallback_blt2d` records whether a
fallback provider reference is configured (line 215). -/
structure fb_copyarea_t where
  fd : Int
  xserver_fbmem : Option Nat
  xres : Int
  yres : Int
  bits_per_pixel : Int
  framebuffer_paddr : Int
  framebuffer_size : Int
  framebuffer_height : Int
  gfx_layer_size : Int
  framebuffer_stride : Int
  framebuffer_addr : Nat
  blt2d_overlapped_blt_set : Bool
  blt2d_fill_set : Bool
  fallback_blt2d : Bool
  dma_fill_threshold : Int
  dma_copy_threshold : Int
deriving DecidableEq

/-- `try_fallback_blt` (lines 200-223): when a fallback provider is
configured, forward all twelve arguments unchanged to its `overlapped_blt`
and return its result; otherwise return 0. `fallback_ovl_blt` is the
oracle for the fallback provider's result. -/
def try_fallback_blt (ctx : fb_copyarea_t) (fallback_ovl_blt : blt2d_args → Int)
    (a : blt2d_args) : Int × List fb_event :=
  if ctx.fallback_blt2d then (fallback_ovl_blt a, [fb_event.fallback_call a])
  else (0, [])

/-- `fb_copyarea_blt` (lines 231-278): the copy dispatcher.
`copyarea_ioctl` is the oracle for the `FBIOCOPYAREA` ioctl return code. -/
def fb_copyarea_blt (ctx : fb_copyarea_t) (fallback_ovl_blt : blt2d_args → Int)
    (copyarea_ioctl : fb_copyarea_req → Int) (a : blt2d_args) :
    Int × List fb_event :=
  if a.w ≤ 0 ∨ a.h ≤ 0 then (1, [])
  else if a.src_bpp ≠ a.dst_bpp ∨ a.src_bpp ≠ ctx.bits_per_pixel ∨
          a.src_stride ≠ a.dst_stride ∨ a.src_stride ≠ ctx.framebuffer_stride ∨
          a.src_bits ≠ a.dst_bits ∨ a.src_bits ≠ ctx.framebuffer_addr then
    try_fallback_blt ctx fallback_ovl_blt a
  else if a.w * a.h < ctx.dma_copy_threshold then
    try_fallback_blt ctx fallback_ovl_blt a
  else
    let copyarea : fb_copyarea_req :=
      { sx := a.src_x, sy := a.src_y, dx := a.dst_x, dy := a.dst_y,
        width := a.w, height := a.h }
    let ret := copyarea_ioctl copyarea
    ((if ret = 0 then 1 else 0), [fb_event.copy_ioctl copyarea])

/-- `fb_fill` (lines 280-319): the fill dispatcher. `fillrect_ioctl` is the
oracle for the `FBIOFILLRECT` ioctl return code. `dst_stride` and `dst_bpp`
are accepted but never read by the C body (outside logging). -/
def fb_fill (ctx : fb_copyarea_t) (fillrect_ioctl : fb_fillrect_req → Int)
    (dst_bits : Nat) (dst_stride dst_bpp dst_x dst_y w h : Int)
    (color : Int) : Int × List fb_event :=
  if w ≤ 0 ∨ h ≤ 0 then (1, [])
  else if dst_bits ≠ ctx.framebuffer_addr ∨ w * h < ctx.dma_fill_threshold then
    (0, [])
  else
    let fillrect : fb_fillrect_req :=
      { dx := dst_x, dy := dst_y, width := w, height := h,
        rop := ROP_COPY, color := color }
    let rc := fillrect_ioctl fillrect
    ((if rc = 0 then 1 else 0), [fb_event.fill_ioctl fillrect])

/-- `fb_copyarea_set_dma_fill_threshold` (lines 321-324). -/
def fb_copyarea_set_dma_fill_threshold (self : fb_copyarea_t) (thresh : Int) :
    fb_copyarea_t :=
  { self with dma_fill_threshold := thresh }

/-- `fb_copyarea_set_dma_copy_threshold` (lines 326-329). -/
def fb_copyarea_set_dma_copy_threshold (self : fb_copyarea_t) (thresh : Int) :
    fb_copyarea_t :=
  { self with dma_copy_threshold := thresh }

/-- The `FBIOGET_VSCREENINFO` fields read by `fb_copyarea_init`
(lines 151-158). -/
structure fb_var_screeninfo where
  xres : Int
  yres : Int
  bits_per_pixel : Int
deriving DecidableEq

/-- The `FBIOGET_FSCREENINFO` fields read by `fb_copyarea_init`
(lines 142, 154-159). -/
structure fb_fix_screeninfo where
  smem_start : Int
  smem_len : Int
  line_length : Int
deriving DecidableEq

/-- Oracle for the system calls `fb_copyarea_init` performs: the file
descriptor `open` returns, the outcomes of the two capability probes
(`fb_has_copyarea`, lines 72-82, and `fb_has_fillrect`, lines 89-101),
the screen-info query results (`none` models a failing ioctl), and the
`mmap` result (`none` models `MAP_FAILED`). -/
structure fb_device_env where
  open_ret : Int
  copyarea_probe_ok : Bool
  fillrect_probe_ok : Bool
  vscreeninfo : Option fb_var_screeninfo
  fscreeninfo : Option fb_fix_screeninfo
  mmap_ret : Option Nat
deriving DecidableEq

/-- Resource state at the moment `fb_copyarea_init` returns: whether the
device handle it opened is still open, and whether it owns a fresh mapping
(one it created with `mmap`, as opposed to the borrowed `xserver_fbmem`). -/
structure init_resources where
  handle_open : Bool
  mapping_owned : Bool
deriving DecidableEq

/-- `fb_copyarea_init` (lines 103-192). Every failure path closes the file
descriptor and frees the context before returning NULL, so each failure
returns `⟨false, false⟩` resources. The successful context carries the
computed geometry, the installed `blt2d` entries (line 184 always installs
`overlapped_blt`; line 186 installs `fill` only when the fillrect probe
succeeded), no fallback (the context comes from `calloc`), and the two
default thresholds (lines 188-189). -/
def fb_copyarea_init (env : fb_device_env) (xserver_fbmem : Option Nat) :
    Option fb_copyarea_t × init_resources :=
  let fd := env.open_ret
  if fd < 0 then (none, ⟨false, false⟩)
  else if env.copyarea_probe_ok = false then (none, ⟨false, false⟩)
  else
    let has_fillrect := env.fillrect_probe_ok
    match env.vscreeninfo, env.fscreeninfo with
    | some fb_var, some fb_fix =>
      if fb_fix.line_length % 4 ≠ 0 then (none, ⟨false, false⟩)
      else
        let xres := fb_var.xres
        let yres := fb_var.yres
        let bits_per_pixel := fb_var.bits_per_pixel
        let framebuffer_size := fb_fix.smem_len
        let framebuffer_height :=
          framebuffer_size / (xres * bits_per_pixel / 8)
        let gfx_layer_size := xres * yres * fb_var.bits_per_pixel / 8
        let framebuffer_stride := fb_fix.line_length / 4
        if framebuffer_size < gfx_layer_size then (none, ⟨false, false⟩)
        else
          let mk_ctx : Nat → fb_copyarea_t := fun addr =>
            { fd := fd
              xserver_fbmem := xserver_fbmem
              xres := xres
              yres := yres
              bits_per_pixel := bits_per_pixel
              framebuffer_paddr := fb_fix.smem_start
              framebuffer_size := framebuffer_size
              framebuffer_height := framebuffer_height
              gfx_layer_size := gfx_layer_size
              framebuffer_stride := framebuffer_stride
              framebuffer_addr := addr
              blt2d_overlapped_blt_set := true
              blt2d_fill_set := has_fillrect
              fallback_blt2d := false
              dma_fill_threshold := COPYAREA_FILL_SIZE_THRESHOLD
              dma_copy_threshold := COPYAREA_BLT_SIZE_THRESHOLD }
          match xserver_fbmem with
          | some m => (some (mk_ctx m), ⟨true, false⟩)
          | none =>
            match env.mmap_ret with
            | none => (none, ⟨false, false⟩)
            | some addr => (some (mk_ctx addr), ⟨true, true⟩)
    | _, _ => (none, ⟨false, false⟩)

/-! Concrete fixtures used by the witness theorems. -/

/-- A concrete device context matching a successful construction: an
8 by 8 surface at 32 bits per pixel, buffer identity 100, no fallback
configured, small thresholds so both dispatcher branches are reachable. -/
def ctx0 : fb_copyarea_t :=
  { fd := 4
    xserver_fbmem := none
    xres := 8
    yres := 8
    bits_per_pixel := 32
    framebuffer_paddr := 4096
    framebuffer_size := 1024
    framebuffer_height := 32
    gfx_layer_size := 256
    framebuffer_stride := 8
    framebuffer_addr := 100
    blt2d_overlapped_blt_set := true
    blt2d_fill_set := true
    fallback_blt2d := false
    dma_fill_threshold := 16
    dma_copy_threshold := 10 }

/-- The context `ctx0` with a fallback provider configured. -/
def ctx1 : fb_copyarea_t := { ctx0 with fallback_blt2d := true }

/-- A copy-argument record compatible with `ctx0`: matching strides, depths
and buffer identities. -/
def args_ok : blt2d_args :=
  { src_bits := 100, dst_bits := 100, src_stride := 8, dst_stride := 8,
    src_bpp := 32, dst_bpp := 32, src_x := 0, src_y := 0, dst_x := 1,
    dst_y := 2, w := 4, h := 4 }

/-- A copy-argument record failing the compatibility gate of `ctx0`
(the bits-per-pixel do not match the surface depth). -/
def args_bad : blt2d_args := { args_ok with src_bpp := 16, dst_bpp := 16 }

/-! Statements and proofs of the claims. -/

/-- Claim C1: a copy request with positive width and height whose
parameters fail the compatibility gate is delegated to the fallback chain
with the identical argument set, and the dispatcher returns the fallback's
result; when no fallback is configured the dispatcher returns 0 (failure),
never success. -/
theorem fb_copyarea_blt_gate_fail_delegates
    (ctx : fb_copyarea_t) (fallback_ovl_blt : blt2d_args → Int)
    (copyarea_ioctl : fb_copyarea_req → Int) (a : blt2d_args)
    (hw : 0 < a.w) (hh : 0 < a.h)
    (hgate : a.src_bpp ≠ a.dst_bpp ∨ a.src_bpp ≠ ctx.bits_per_pixel ∨
             a.src_stride ≠ a.dst_stride ∨
             a.src_stride ≠ ctx.framebuffer_stride ∨
             a.src_bits ≠ a.dst_bits ∨ a.src_bits ≠ ctx.framebuffer_addr) :
    fb_copyarea_blt ctx fallback_ovl_blt copyarea_ioctl a =
      if ctx.fallback_blt2d then
        (fallback_ovl_blt a, [fb_event.fallback_call a])
      else (0, []) := by
  have hdeg : ¬ (a.w ≤ 0 ∨ a.h ≤ 0) := by omega
  simp only [fb_copyarea_blt, try_fallback_blt, if_neg hdeg, if_pos hgate]

/-- Witness for C1 at concrete inputs, in both fallback configurations. -/
theorem fb_copyarea_blt_gate_fail_delegates_w :
    fb_copyarea_blt ctx0 (fun _ => 7) (fun _ => 0) args_bad = (0, []) ∧
    fb_copyarea_blt ctx1 (fun _ => 7) (fun _ => 0) args_bad =
      (7, [fb_event.fallback_call args_bad]) := by
  constructor
  · have h := fb_copyarea_blt_gate_fail_delegates ctx0 (fun _ => 7)
      (fun _ => 0) args_bad (by decide) (by decide) (by decide)
    simpa [ctx0] using h
  · have h := fb_copyarea_blt_gate_fail_delegates ctx1 (fun _ => 7)
      (fun _ => 0) args_bad (by decide) (by decide) (by decide)
    simpa [ctx1, ctx0] using h

/-- Claim C2: a copy request with positive width and height that passes
the compatibility gate but whose area is below the copy threshold is
delegated: no accelerated copy request is issued, and a configured
fallback is invoked with the byte-identical argument record (an absent
fallback yields 0). -/
theorem fb_copyarea_blt_small_delegates
    (ctx : fb_copyarea_t) (fallback_ovl_blt : blt2d_args → Int)
    (copyarea_ioctl : fb_copyarea_req → Int) (a : blt2d_args)
    (hw : 0 < a.w) (hh : 0 < a.h)
    (h1 : a.src_bpp = a.dst_bpp) (h2 : a.src_bpp = ctx.bits_per_pixel)
    (h3 : a.src_stride = a.dst_stride)
    (h4 : a.src_stride = ctx.framebuffer_stride)
    (h5 : a.src_bits = a.dst_bits) (h6 : a.src_bits = ctx.framebuffer_addr)
    (hsmall : a.w * a.h < ctx.dma_copy_threshold) :
    fb_copyarea_blt ctx fallback_ovl_blt copyarea_ioctl a =
      (if ctx.fallback_blt2d then
        (fallback_ovl_blt a, [fb_event.fallback_call a])
       else (0, [])) ∧
    ∀ q, fb_event.copy_ioctl q ∉
      (fb_copyarea_blt ctx fallback_ovl_blt copyarea_ioctl a).2 := by
  have hdeg : ¬ (a.w ≤ 0 ∨ a.h ≤ 0) := by omega
  have hgate : ¬ (a.src_bpp ≠ a.dst_bpp ∨ a.src_bpp ≠ ctx.bits_per_pixel ∨
      a.src_stride ≠ a.dst_stride ∨ a.src_stride ≠ ctx.framebuffer_stride ∨
      a.src_bits ≠ a.dst_bits ∨ a.src_bits ≠ ctx.framebuffer_addr) := by
    push_neg
    exact ⟨h1, h2, h3, h4, h5, h6⟩
  have hmain : fb_copyarea_blt ctx fallback_ovl_blt copyarea_ioctl a =
      if ctx.fallback_blt2d then
        (fallback_ovl_blt a, [fb_event.fallback_call a])
      else (0, []) := by
    simp only [fb_copyarea_blt, try_fallback_blt, if_neg hdeg, if_neg hgate,
      if_pos hsmall]
  refine ⟨hmain, ?_⟩
  intro q
  rw [hmain]
  by_cases hf : ctx.fallback_blt2d <;> simp [hf]

/-- Witness for C2: a compatible 3 by 3 request (area 9, below threshold
10 of `ctx1`) is delegated to the configured fallback. -/
theorem fb_copyarea_blt_small_delegates_w :
    fb_copyarea_blt ctx1 (fun _ => 5) (fun _ => 0)
      { args_ok with w := 3, h := 3 } =
      (5, [fb_event.fallback_call { args_ok with w := 3, h := 3 }]) := by
  have h := fb_copyarea_blt_small_delegates ctx1 (fun _ => 5) (fun _ => 0)
    { args_ok with w := 3, h := 3 } (by decide) (by decide) (by decide)
    (by decide) (by decide) (by decide) (by decide) (by decide) (by decide)
  rw [h.1]
  decide

/-- Claim C3: a copy request with positive width and height that passes
the compatibility gate and whose area reaches the copy threshold issues
exactly one accelerated copy request carrying exactly the given origins
and size, makes no fallback call, and returns 1 exactly when the
underlying ioctl reports success (returns 0). -/
theorem fb_copyarea_blt_accel
    (ctx : fb_copyarea_t) (fallback_ovl_blt : blt2d_args → Int)
    (copyarea_ioctl : fb_copyarea_req → Int) (a : blt2d_args)
    (hw : 0 < a.w) (hh : 0 < a.h)
    (h1 : a.src_bpp = a.dst_bpp) (h2 : a.src_bpp = ctx.bits_per_pixel)
    (h3 : a.src_stride = a.dst_stride)
    (h4 : a.src_stride = ctx.framebuffer_stride)
    (h5 : a.src_bits = a.dst_bits) (h6 : a.src_bits = ctx.framebuffer_addr)
    (hbig : ctx.dma_copy_threshold ≤ a.w * a.h) :
    fb_copyarea_blt ctx fallback_ovl_blt copyarea_ioctl a =
      ((if copyarea_ioctl { sx := a.src_x, sy := a.src_y, dx := a.dst_x,
                            dy := a.dst_y, width := a.w,
                            height := a.h } = 0 then 1 else 0),
       [fb_event.copy_ioctl { sx := a.src_x, sy := a.src_y, dx := a.dst_x,
                              dy := a.dst_y, width := a.w,
                              height := a.h }]) := by
  have hdeg : ¬ (a.w ≤ 0 ∨ a.h ≤ 0) := by omega
  have hgate : ¬ (a.src_bpp ≠ a.dst_bpp ∨ a.src_bpp ≠ ctx.bits_per_pixel ∨
      a.src_stride ≠ a.dst_stride ∨ a.src_stride ≠ ctx.framebuffer_stride ∨
      a.src_bits ≠ a.dst_bits ∨ a.src_bits ≠ ctx.framebuffer_addr) := by
    push_neg
    exact ⟨h1, h2, h3, h4, h5, h6⟩
  have hth : ¬ (a.w * a.h < ctx.dma_copy_threshold) := not_lt.mpr hbig
  simp only [fb_copyarea_blt, if_neg hdeg, if_neg hgate, if_neg hth]

/-- Witness for C3: a compatible 4 by 4 request (area 16, at least the
threshold 10) on `ctx1` issues exactly the matching accelerated request;
with a succeeding ioctl the dispatcher returns 1, and with a failing
ioctl it returns 0 with no fallback retry. -/
theorem fb_copyarea_blt_accel_w :
    fb_copyarea_blt ctx1 (fun _ => 7) (fun _ => 0) args_ok =
      (1, [fb_event.copy_ioctl
        { sx := 0, sy := 0, dx := 1, dy := 2, width := 4, height := 4 }]) ∧
    fb_copyarea_blt ctx1 (fun _ => 7) (fun _ => -1) args_ok =
      (0, [fb_event.copy_ioctl
        { sx := 0, sy := 0, dx := 1, dy := 2, width := 4, height := 4 }]) := by
  constructor
  · have h := fb_copyarea_blt_accel ctx1 (fun _ => 7) (fun _ => 0) args_ok
      (by decide) (by decide) (by decide) (by decide) (by decide) (by decide)
      (by decide) (by decide) (by decide)
    rw [h]; decide
  · have h := fb_copyarea_blt_accel ctx1 (fun _ => 7) (fun _ => -1) args_ok
      (by decide) (by decide) (by decide) (by decide) (by decide) (by decide)
      (by decide) (by decide) (by decide)
    rw [h]; decide

/-- Claim C4: any copy request and any fill request with nonpositive width
or height returns 1 (success) immediately, issuing no accelerated request
and no fallback call, regardless of compatibility or fallback presence. -/
theorem degenerate_requests_succeed
    (ctx : fb_copyarea_t) (fallback_ovl_blt : blt2d_args → Int)
    (copyarea_ioctl : fb_copyarea_req → Int)
    (fillrect_ioctl : fb_fillrect_req → Int) (a : blt2d_args)
    (dst_bits : Nat) (dst_stride dst_bpp dst_x dst_y w h color : Int)
    (hcopy : a.w ≤ 0 ∨ a.h ≤ 0) (hfill : w ≤ 0 ∨ h ≤ 0) :
    fb_copyarea_blt ctx fallback_ovl_blt copyarea_ioctl a = (1, []) ∧
    fb_fill ctx fillrect_ioctl dst_bits dst_stride dst_bpp dst_x dst_y
      w h color = (1, []) := by
  constructor
  · simp only [fb_copyarea_blt, if_pos hcopy]
  · simp only [fb_fill, if_pos hfill]

/-- Witness for C4: a 0 by 4 copy and a 3 by 0 fill on a context with no
fallback and incompatible parameters still return success with no calls. -/
theorem degenerate_requests_succeed_w :
    fb_copyarea_blt ctx0 (fun _ => 7) (fun _ => -1)
      { args_bad with w := 0 } = (1, []) ∧
    fb_fill ctx0 (fun _ => -1) 99 8 32 1 2 3 0 5 = (1, []) :=
  degenerate_requests_succeed ctx0 (fun _ => 7) (fun _ => -1) (fun _ => -1)
    { args_bad with w := 0 } 99 8 32 1 2 3 0 5 (by decide) (by decide)

/-- Claim C5: a fill request with positive width and height whose
destination buffer is not the surface's own buffer, or whose area is below
the fill threshold, returns 0 (failure) with no accelerated request and no
fallback call. -/
theorem fb_fill_rejects_incompatible
    (ctx : fb_copyarea_t) (fillrect_ioctl : fb_fillrect_req → Int)
    (dst_bits : Nat) (dst_stride dst_bpp dst_x dst_y w h color : Int)
    (hw : 0 < w) (hh : 0 < h)
    (hbad : dst_bits ≠ ctx.framebuffer_addr ∨
            w * h < ctx.dma_fill_threshold) :
    fb_fill ctx fillrect_ioctl dst_bits dst_stride dst_bpp dst_x dst_y
      w h color = (0, []) := by
  have hdeg : ¬ (w ≤ 0 ∨ h ≤ 0) := by omega
  simp only [fb_fill, if_neg hdeg, if_pos hbad]

/-- Witness for C5: both rejection causes at concrete inputs: a foreign
destination buffer (99 instead of 100), and a 3 by 3 area below the fill
threshold 16 of `ctx0`. -/
theorem fb_fill_rejects_incompatible_w :
    fb_fill ctx0 (fun _ => 0) 99 8 32 1 2 4 4 5 = (0, []) ∧
    fb_fill ctx0 (fun _ => 0) 100 8 32 1 2 3 3 5 = (0, []) :=
  ⟨fb_fill_rejects_incompatible ctx0 (fun _ => 0) 99 8 32 1 2 4 4 5
      (by decide) (by decide) (by decide),
   fb_fill_rejects_incompatible ctx0 (fun _ => 0) 100 8 32 1 2 3 3 5
      (by decide) (by decide) (by decide)⟩

/-- Claim C6: a fill request with positive width and height on the
surface's own buffer with area at least the fill threshold issues exactly
one accelerated fill request with raster operation `ROP_COPY` and the
given origin, size and color, and returns 1 exactly when the underlying
ioctl reports success (returns 0). -/
theorem fb_fill_accel
    (ctx : fb_copyarea_t) (fillrect_ioctl : fb_fillrect_req → Int)
    (dst_bits : Nat) (dst_stride dst_bpp dst_x dst_y w h color : Int)
    (hw : 0 < w) (hh : 0 < h)
    (hbuf : dst_bits = ctx.framebuffer_addr)
    (hbig : ctx.dma_fill_threshold ≤ w * h) :
    fb_fill ctx fillrect_ioctl dst_bits dst_stride dst_bpp dst_x dst_y
      w h color =
      ((if fillrect_ioctl { dx := dst_x, dy := dst_y, width := w,
                            height := h, rop := ROP_COPY,
                            color := color } = 0 then 1 else 0),
       [fb_event.fill_ioctl { dx := dst_x, dy := dst_y, width := w,
                              height := h, rop := ROP_COPY,
                              color := color }]) := by
  have hdeg : ¬ (w ≤ 0 ∨ h ≤ 0) := by omega
  have hok : ¬ (dst_bits ≠ ctx.framebuffer_addr ∨
      w * h < ctx.dma_fill_threshold) := by
    push_neg
    exact ⟨hbuf, hbig⟩
  simp only [fb_fill, if_neg hdeg, if_neg hok]

/-- Witness for C6: a 4 by 4 fill (area 16, at the threshold) on the
surface's buffer issues exactly the matching `ROP_COPY` request; with a
succeeding ioctl the dispatcher returns 1, with a failing ioctl 0. -/
theorem fb_fill_accel_w :
    fb_fill ctx0 (fun _ => 0) 100 8 32 1 2 4 4 5 =
      (1, [fb_event.fill_ioctl { dx := 1, dy := 2, width := 4, height := 4,
                                 rop := 0, color := 5 }]) ∧
    fb_fill ctx0 (fun _ => -1) 100 8 32 1 2 4 4 5 =
      (0, [fb_event.fill_ioctl { dx := 1, dy := 2, width := 4, height := 4,
                                 rop := 0, color := 5 }]) := by
  constructor
  · have h := fb_fill_accel ctx0 (fun _ => 0) 100 8 32 1 2 4 4 5
      (by decide) (by decide) (by decide) (by decide)
    rw [h]; decide
  · have h := fb_fill_accel ctx0 (fun _ => -1) 100 8 32 1 2 4 4 5
      (by decide) (by decide) (by decide) (by decide)
    rw [h]; decide

/-- Claim C10: the fill dispatcher never reads `dst_stride` or `dst_bpp`:
two fill requests differing only in those two arguments produce the same
result and the same externally visible calls, for every context, oracle
and remaining arguments. -/
theorem fb_fill_independent_of_stride_and_bpp
    (ctx : fb_copyarea_t) (fillrect_ioctl : fb_fillrect_req → Int)
    (dst_bits : Nat)
    (dst_stride dst_stride' dst_bpp dst_bpp' dst_x dst_y w h color : Int) :
    fb_fill ctx fillrect_ioctl dst_bits dst_stride dst_bpp dst_x dst_y
      w h color =
    fb_fill ctx fillrect_ioctl dst_bits dst_stride' dst_bpp' dst_x dst_y
      w h color := rfl

/-- Claim C8: construction fails, returning no context, leaving the device
handle closed and owning no mapping, whenever the reported row byte stride
is not a multiple of 4, and also whenever the declared surface size
(width times height times bits-per-pixel over 8) exceeds the reported
addressable framebuffer memory. -/
theorem fb_copyarea_init_rejects_bad_geometry
    (env : fb_device_env) (mem : Option Nat)
    (v : fb_var_screeninfo) (f : fb_fix_screeninfo)
    (hv : env.vscreeninfo = some v) (hf : env.fscreeninfo = some f)
    (hbad : f.line_length % 4 ≠ 0 ∨
            f.smem_len < v.xres * v.yres * v.bits_per_pixel / 8) :
    fb_copyarea_init env mem = (none, ⟨false, false⟩) := by
  simp only [fb_copyarea_init, hv, hf]
  split_ifs with h0 h1 h2 h3
  · rfl
  · rfl
  · rfl
  · rfl
  · rcases hbad with hb | hb
    · exact absurd hb h2
    · exact absurd hb h3

/-- Witness for C8: a stride of 33 bytes (not a multiple of 4) and a
surface of 256 bytes declared over only 100 bytes of memory each make
construction fail with the handle closed and no mapping owned. -/
theorem fb_copyarea_init_rejects_bad_geometry_w :
    fb_copyarea_init
      { open_ret := 4, copyarea_probe_ok := true, fillrect_probe_ok := true,
        vscreeninfo := some { xres := 8, yres := 8, bits_per_pixel := 32 },
        fscreeninfo := some { smem_start := 4096, smem_len := 1024,
                              line_length := 33 },
        mmap_ret := some 100 } none = (none, ⟨false, false⟩) ∧
    fb_copyarea_init
      { open_ret := 4, copyarea_probe_ok := true, fillrect_probe_ok := true,
        vscreeninfo := some { xres := 8, yres := 8, bits_per_pixel := 32 },
        fscreeninfo := some { smem_start := 4096, smem_len := 100,
                              line_length := 32 },
        mmap_ret := some 100 } none = (none, ⟨false, false⟩) :=
  ⟨fb_copyarea_init_rejects_bad_geometry _ none
      { xres := 8, yres := 8, bits_per_pixel := 32 }
      { smem_start := 4096, smem_len := 1024, line_length := 33 }
      rfl rfl (by decide),
   fb_copyarea_init_rejects_bad_geometry _ none
      { xres := 8, yres := 8, bits_per_pixel := 32 }
      { smem_start := 4096, smem_len := 100, line_length := 32 }
      rfl rfl (by decide)⟩

/-- Claim C7: when the fill capability probe fails but every other
construction step succeeds, construction still returns a context whose
exposed fill entry is left unset while the copy entry is installed; the
capability flag equals the probe outcome and is untouched by the only
post-construction mutators (the threshold setters). -/
theorem fb_copyarea_init_fill_probe_optional
    (env : fb_device_env) (mem : Option Nat)
    (v : fb_var_screeninfo) (f : fb_fix_screeninfo)
    (hfd : 0 ≤ env.open_ret) (hcap : env.copyarea_probe_ok = true)
    (hv : env.vscreeninfo = some v) (hf : env.fscreeninfo = some f)
    (hline : f.line_length % 4 = 0)
    (hsize : ¬ (f.smem_len < v.xres * v.yres * v.bits_per_pixel / 8))
    (hmap : mem.isSome = true ∨ env.mmap_ret.isSome = true)
    (hprobe : env.fillrect_probe_ok = false) :
    ∃ ctx : fb_copyarea_t,
      (fb_copyarea_init env mem).1 = some ctx ∧
      ctx.blt2d_fill_set = false ∧
      ctx.blt2d_overlapped_blt_set = true ∧
      (∀ s, (fb_copyarea_set_dma_fill_threshold ctx s).blt2d_fill_set =
        ctx.blt2d_fill_set) ∧
      (∀ s, (fb_copyarea_set_dma_copy_threshold ctx s).blt2d_fill_set =
        ctx.blt2d_fill_set) := by
  have h0 : ¬ (env.open_ret < 0) := by omega
  have h1 : ¬ (env.copyarea_probe_ok = false) := by simp [hcap]
  have h2 : ¬ (f.line_length % 4 ≠ 0) := by simp [hline]
  simp only [fb_copyarea_init, hv, hf, if_neg h0, if_neg h1, if_neg h2,
    if_neg hsize]
  rcases mem with _ | m
  · rcases hmem : env.mmap_ret with _ | addr
    · rcases hmap with hm | hm
      · simp at hm
      · rw [hmem] at hm
        simp at hm
    · exact ⟨_, rfl, by simp [hprobe], rfl, fun s => rfl, fun s => rfl⟩
  · exact ⟨_, rfl, by simp [hprobe], rfl, fun s => rfl, fun s => rfl⟩

/-- Witness for C7: a concrete environment whose fillrect probe fails but
whose remaining steps succeed yields a context with the fill entry unset,
the copy entry installed, and the flag preserved by both setters. -/
theorem fb_copyarea_init_fill_probe_optional_w :
    ∃ ctx : fb_copyarea_t,
      (fb_copyarea_init
        { open_ret := 4, copyarea_probe_ok := true,
          fillrect_probe_ok := false,
          vscreeninfo := some { xres := 8, yres := 8, bits_per_pixel := 32 },
          fscreeninfo := some { smem_start := 4096, smem_len := 1024,
                                line_length := 32 },
          mmap_ret := some 100 } none).1 = some ctx ∧
      ctx.blt2d_fill_set = false ∧
      ctx.blt2d_overlapped_blt_set = true ∧
      (∀ s, (fb_copyarea_set_dma_fill_threshold ctx s).blt2d_fill_set =
        ctx.blt2d_fill_set) ∧
      (∀ s, (fb_copyarea_set_dma_copy_threshold ctx s).blt2d_fill_set =
        ctx.blt2d_fill_set) :=
  fb_copyarea_init_fill_probe_optional _ none
    { xres := 8, yres := 8, bits_per_pixel := 32 }
    { smem_start := 4096, smem_len := 1024, line_length := 32 }
    (by decide) rfl rfl rfl (by decide) (by decide) (Or.inr rfl) rfl

/-- Claim C9: each threshold setter stores its argument in its own
threshold field and leaves every other context field unchanged, and each
dispatcher compares the request area against the threshold stored in the
context it is called on: after updating the copy threshold to `u`, a
compatible positive copy request delegates exactly when its area is below
`u`; after updating the fill threshold to `t`, a positive on-surface fill
request is rejected exactly when its area is below `t`. -/
theorem fb_copyarea_threshold_setters
    (ctx : fb_copyarea_t) (t u : Int)
    (fallback_ovl_blt : blt2d_args → Int)
    (copyarea_ioctl : fb_copyarea_req → Int)
    (fillrect_ioctl : fb_fillrect_req → Int)
    (a : blt2d_args) (dst_bits : Nat)
    (dst_stride dst_bpp dst_x dst_y w h color : Int)
    (hw : 0 < a.w) (hh : 0 < a.h)
    (h1 : a.src_bpp = a.dst_bpp) (h2 : a.src_bpp = ctx.bits_per_pixel)
    (h3 : a.src_stride = a.dst_stride)
    (h4 : a.src_stride = ctx.framebuffer_stride)
    (h5 : a.src_bits = a.dst_bits) (h6 : a.src_bits = ctx.framebuffer_addr)
    (hfw : 0 < w) (hfh : 0 < h)
    (hbuf : dst_bits = ctx.framebuffer_addr) :
    (fb_copyarea_set_dma_fill_threshold ctx t).dma_fill_threshold = t ∧
    (fb_copyarea_set_dma_fill_threshold ctx t).fd = ctx.fd ∧
    (fb_copyarea_set_dma_fill_threshold ctx t).xserver_fbmem =
      ctx.xserver_fbmem ∧
    (fb_copyarea_set_dma_fill_threshold ctx t).xres = ctx.xres ∧
    (fb_copyarea_set_dma_fill_threshold ctx t).yres = ctx.yres ∧
    (fb_copyarea_set_dma_fill_threshold ctx t).bits_per_pixel =
      ctx.bits_per_pixel ∧
    (fb_copyarea_set_dma_fill_threshold ctx t).framebuffer_paddr =
      ctx.framebuffer_paddr ∧
    (fb_copyarea_set_dma_fill_threshold ctx t).framebuffer_size =
      ctx.framebuffer_size ∧
    (fb_copyarea_set_dma_fill_threshold ctx t).framebuffer_height =
      ctx.framebuffer_height ∧
    (fb_copyarea_set_dma_fill_threshold ctx t).gfx_layer_size =
      ctx.gfx_layer_size ∧
    (fb_copyarea_set_dma_fill_threshold ctx t).framebuffer_stride =
      ctx.framebuffer_stride ∧
    (fb_copyarea_set_dma_fill_threshold ctx t).framebuffer_addr =
      ctx.framebuffer_addr ∧
    (fb_copyarea_set_dma_fill_threshold ctx t).blt2d_overlapped_blt_set =
      ctx.blt2d_overlapped_blt_set ∧
    (fb_copyarea_set_dma_fill_threshold ctx t).blt2d_fill_set =
      ctx.blt2d_fill_set ∧
    (fb_copyarea_set_dma_fill_threshold ctx t).fallback_blt2d =
      ctx.fallback_blt2d ∧
    (fb_copyarea_set_dma_fill_threshold ctx t).dma_copy_threshold =
      ctx.dma_copy_threshold ∧
    (fb_copyarea_set_dma_copy_threshold ctx u).dma_copy_threshold = u ∧
    (fb_copyarea_set_dma_copy_threshold ctx u).fd = ctx.fd ∧
    (fb_copyarea_set_dma_copy_threshold ctx u).xserver_fbmem =
      ctx.xserver_fbmem ∧
    (fb_copyarea_set_dma_copy_threshold ctx u).xres = ctx.xres ∧
    (fb_copyarea_set_dma_copy_threshold ctx u).yres = ctx.yres ∧
    (fb_copyarea_set_dma_copy_threshold ctx u).bits_per_pixel =
      ctx.bits_per_pixel ∧
    (fb_copyarea_set_dma_copy_threshold ctx u).framebuffer_paddr =
      ctx.framebuffer_paddr ∧
    (fb_copyarea_set_dma_copy_threshold ctx u).framebuffer_size =
      ctx.framebuffer_size ∧
    (fb_copyarea_set_dma_copy_threshold ctx u).framebuffer_height =
      ctx.framebuffer_height ∧
    (fb_copyarea_set_dma_copy_threshold ctx u).gfx_layer_size =
      ctx.gfx_layer_size ∧
    (fb_copyarea_set_dma_copy_threshold ctx u).framebuffer_stride =
      ctx.framebuffer_stride ∧
    (fb_copyarea_set_dma_copy_threshold ctx u).framebuffer_addr =
      ctx.framebuffer_addr ∧
    (fb_copyarea_set_dma_copy_threshold ctx u).blt2d_overlapped_blt_set =
      ctx.blt2d_overlapped_blt_set ∧
    (fb_copyarea_set_dma_copy_threshold ctx u).blt2d_fill_set =
      ctx.blt2d_fill_set ∧
    (fb_copyarea_set_dma_copy_threshold ctx u).fallback_blt2d =
      ctx.fallback_blt2d ∧
    (fb_copyarea_set_dma_copy_threshold ctx u).dma_fill_threshold =
      ctx.dma_fill_threshold ∧
    (fb_copyarea_blt (fb_copyarea_set_dma_copy_threshold ctx u)
        fallback_ovl_blt copyarea_ioctl a =
      if a.w * a.h < u then
        (if ctx.fallback_blt2d then
          (fallback_ovl_blt a, [fb_event.fallback_call a])
         else (0, []))
      else
        ((if copyarea_ioctl { sx := a.src_x, sy := a.src_y, dx := a.dst_x,
                              dy := a.dst_y, width := a.w,
                              height := a.h } = 0 then 1 else 0),
         [fb_event.copy_ioctl { sx := a.src_x, sy := a.src_y,
                                dx := a.dst_x, dy := a.dst_y, width := a.w,
                                height := a.h }])) ∧
    (fb_fill (fb_copyarea_set_dma_fill_threshold ctx t) fillrect_ioctl
        dst_bits dst_stride dst_bpp dst_x dst_y w h color =
      if w * h < t then (0, [])
      else
        ((if fillrect_ioctl { dx := dst_x, dy := dst_y, width := w,
                              height := h, rop := ROP_COPY,
                              color := color } = 0 then 1 else 0),
         [fb_event.fill_ioctl { dx := dst_x, dy := dst_y, width := w,
                                height := h, rop := ROP_COPY,
                                color := color }])) := by
  have hdeg : ¬ (a.w ≤ 0 ∨ a.h ≤ 0) := by omega
  have hfdeg : ¬ (w ≤ 0 ∨ h ≤ 0) := by omega
  have hgate : ¬ (a.src_bpp ≠ a.dst_bpp ∨ a.src_bpp ≠ ctx.bits_per_pixel ∨
      a.src_stride ≠ a.dst_stride ∨
      a.src_stride ≠ ctx.framebuffer_stride ∨
      a.src_bits ≠ a.dst_bits ∨ a.src_bits ≠ ctx.framebuffer_addr) := by
    push_neg
    exact ⟨h1, h2, h3, h4, h5, h6⟩
  have hcopy_obs : fb_copyarea_blt (fb_copyarea_set_dma_copy_threshold ctx u)
      fallback_ovl_blt copyarea_ioctl a =
      if a.w * a.h < u then
        (if ctx.fallback_blt2d then
          (fallback_ovl_blt a, [fb_event.fallback_call a])
         else (0, []))
      else
        ((if copyarea_ioctl { sx := a.src_x, sy := a.src_y, dx := a.dst_x,
                              dy := a.dst_y, width := a.w,
                              height := a.h } = 0 then 1 else 0),
         [fb_event.copy_ioctl { sx := a.src_x, sy := a.src_y,
                                dx := a.dst_x, dy := a.dst_y, width := a.w,
                                height := a.h }]) := by
    by_cases hlt : a.w * a.h < u
    · simp only [fb_copyarea_blt, try_fallback_blt,
        fb_copyarea_set_dma_copy_threshold, if_neg hdeg, if_neg hgate,
        if_pos hlt]
    · simp only [fb_copyarea_blt, fb_copyarea_set_dma_copy_threshold,
        if_neg hdeg, if_neg hgate, if_neg hlt]
  have hfill_obs : fb_fill (fb_copyarea_set_dma_fill_threshold ctx t)
      fillrect_ioctl dst_bits dst_stride dst_bpp dst_x dst_y w h color =
      if w * h < t then (0, [])
      else
        ((if fillrect_ioctl { dx := dst_x, dy := dst_y, width := w,
                              height := h, rop := ROP_COPY,
                              color := color } = 0 then 1 else 0),
         [fb_event.fill_ioctl { dx := dst_x, dy := dst_y, width := w,
                                height := h, rop := ROP_COPY,
                                color := color }]) := by
    by_cases hlt : w * h < t
    · have hcond : dst_bits ≠
          (fb_copyarea_set_dma_fill_threshold ctx t).framebuffer_addr ∨
          w * h <
          (fb_copyarea_set_dma_fill_threshold ctx t).dma_fill_threshold :=
        Or.inr hlt
      rw [if_pos hlt]
      simp only [fb_fill, if_neg hfdeg, if_pos hcond]
    · have hcond : ¬ (dst_bits ≠
          (fb_copyarea_set_dma_fill_threshold ctx t).framebuffer_addr ∨
          w * h <
          (fb_copyarea_set_dma_fill_threshold ctx t).dma_fill_threshold) := by
        push_neg
        exact ⟨hbuf, not_lt.mp hlt⟩
      rw [if_neg hlt]
      simp only [fb_fill, if_neg hfdeg, if_neg hcond]
  exact ⟨rfl, rfl, rfl, rfl, rfl, rfl, rfl, rfl, rfl, rfl, rfl, rfl, rfl,
    rfl, rfl, rfl, rfl, rfl, rfl, rfl, rfl, rfl, rfl, rfl, rfl, rfl, rfl,
    rfl, rfl, rfl, rfl, rfl, hcopy_obs, hfill_obs⟩

/-- Witness for C9: on `ctx0` (copy threshold 10, fill threshold 16),
raising the copy threshold to 20 makes the next compatible 4 by 4 copy
(area 16, accelerated before the set) delegate, and raising the fill
threshold to 100 makes the next 4 by 4 on-surface fill be rejected. -/
theorem fb_copyarea_threshold_setters_w :
    (fb_copyarea_set_dma_copy_threshold ctx0 20).dma_copy_threshold = 20 ∧
    (fb_copyarea_set_dma_fill_threshold ctx0 100).dma_fill_threshold =
      100 ∧
    fb_copyarea_blt (fb_copyarea_set_dma_copy_threshold ctx0 20)
      (fun _ => 5) (fun _ => 0) args_ok = (0, []) ∧
    fb_fill (fb_copyarea_set_dma_fill_threshold ctx0 100) (fun _ => 0)
      100 8 32 1 2 4 4 5 = (0, []) := by
  have h := fb_copyarea_threshold_setters ctx0 100 20 (fun _ => 5)
    (fun _ => 0) (fun _ => 0) args_ok 100 8 32 1 2 4 4 5
    (by decide) (by decide) (by decide) (by decide) (by decide)
    (by decide) (by decide) (by decide) (by decide) (by decide)
    (by decide)
  obtain ⟨hft, -, -, -, -, -, -, -, -, -, -, -, -, -, -, -, hct, -, -, -,
    -, -, -, -, -, -, -, -, -, -, -, -, hco, hfo⟩ := h
  refine ⟨hct, hft, ?_, ?_⟩
  · rw [hco]
    decide
  · rw [hfo]
    decide
